import Mathlib

/-!
Verification of the xapicaliper assignment statement builders
(`src/lib/statements/assignment.js`) against their specification.

The event builders (`create`, `view`, `submit`, `grade`, `feedback`) are
embedded directly from the source file.  The statement-processing engine
they delegate to (`StatementUtil`: validator, identifier deriver,
entity/person renderers, statement processor) lives in `lib/util.js`,
which is not part of the sources under verification; those definitions
are modelled from the specification and marked as such.
-/

/-- Modelled from the spec (data model / design notes): the tagged-variant
value model over text, number, date, uri and sequence, plus a null value.
Metadata values are one of these.  Sequences carry textual elements (the
only array-typed field in the module, `submission_types`, is an array of
strings). -/
inductive Value where
  | null
  | text (s : String)
  | num (q : Rat)
  | date (d : String)
  | uri (u : String)
  | seq (xs : List String)
  deriving DecidableEq, Repr

/-- Rendered JSON-like output values of the two target formats. -/
inductive Json where
  | str (s : String)
  | num (q : Rat)
  | bool (b : Bool)
  | arr (xs : List String)
  | obj (fields : List (String × Json))
  deriving Repr

/-- A metadata mapping: ordered field name / value pairs. -/
abbrev Metadata := List (String × Value)

/-- First value stored under a key, none when the key is absent. -/
def getField (md : Metadata) (k : String) : Option Value :=
  match md with
  | [] => none
  | (k', v) :: rest => if k' = k then some v else getField rest k

/-- Modelled from the spec (4.1): the field kinds the validator supports. -/
inductive FieldType where
  | string
  | number
  | date
  | uri
  | array
  deriving DecidableEq, Repr

/-- A validation rule for one field: declared type and requiredness. -/
structure Rule where
  ftype : FieldType
  required : Bool
  deriving DecidableEq, Repr

/-- Modelled from the spec (7): reason of a validation failure. -/
inductive Reason where
  | missing
  | wrongType
  deriving DecidableEq, Repr

/-- Modelled from the spec (7): a validation error carries the field name,
the failure reason and the expected type. -/
structure ValidationError where
  field : String
  reason : Reason
  expected : FieldType
  deriving DecidableEq, Repr

/-- Modelled from the spec (4.1): a value counts as absent when the key is
missing, the value is null, or the value is an empty string. -/
def isAbsent : Option Value → Bool
  | none => true
  | some .null => true
  | some (.text s) => s.isEmpty
  | some (.uri u) => u.isEmpty
  | some _ => false

/-- Modelled from the spec (4.1, design notes): type conformance as an
exhaustive match of the value tag against the declared field type. -/
def typeMatches : Value → FieldType → Bool
  | .text _, .string => true
  | .num _, .number => true
  | .date _, .date => true
  | .uri _, .uri => true
  | .seq _, .array => true
  | _, _ => false

/-- Type conformance of a possibly-absent value (only consulted for
present values). -/
def typeOfMatches : Option Value → FieldType → Bool
  | some v, t => typeMatches v t
  | none, _ => false

/-- Modelled from the spec (4.1): the outcome of checking one field
against its rule: a missing-required failure, a wrong-type failure, or
none. -/
def fieldError (v : Option Value) (r : Rule) : Option (Reason × FieldType) :=
  if isAbsent v then
    if r.required then some (.missing, r.ftype) else none
  else
    if typeOfMatches v r.ftype then none else some (.wrongType, r.ftype)

/-- Modelled from the spec (4.1): `validate(rules, metadata)` walks the
rules in declared order and returns the first failure, or none when every
declared field passes.  Fields of the metadata not listed in the rules are
ignored. -/
def validate (rules : List (String × Rule)) (md : Metadata) : Option ValidationError :=
  match rules with
  | [] => none
  | (name, r) :: rest =>
    match fieldError (getField md name) r with
    | some (reason, expected) => some ⟨name, reason, expected⟩
    | none => validate rest md

/-- Textual serialization of a metadata value, used when a value becomes a
part of an identifier derivation. -/
def serializeValue : Value → String
  | .null => "null"
  | .text s => s
  | .num q => toString q.num ++ "/" ++ toString q.den
  | .date d => d
  | .uri u => u
  | .seq xs => "[" ++ String.intercalate "," xs ++ "]"

/-- Serialization of a possibly-absent identifier part. -/
def serializePart : Option Value → String
  | none => "undefined"
  | some v => serializeValue v

/-- Length-prefixed encoding of one part, so distinct part sequences keep
distinct canonical byte sequences. -/
def encodePart (s : String) : String :=
  toString s.length ++ ":" ++ s

/-- Modelled from the spec (4.2): the identifier deriver concatenates the
platform, the verb and the ordered parts into a canonical string using an
unambiguous length-prefixed encoding; it is a pure function, so identical
inputs always give the identical identifier. -/
def deriveId (platform : String) (verb : String) (parts : List (Option Value)) : String :=
  encodePart platform ++ encodePart verb ++ String.join (parts.map (fun p => encodePart (serializePart p)))

/-- Alias under the source's name: `StatementUtil.XAPI.generateUuid`. -/
def generateUuid (platform : String) (verb : String) (parts : List (Option Value)) : String :=
  deriveId platform verb parts

/-- Modelled from the spec (4.3): drop the attributes whose supplied value
is absent; present values are kept untouched. -/
def pruneFields (l : List (String × Option Json)) : List (String × Json) :=
  l.filterMap (fun p => match p.2 with
    | some j => some (p.1, j)
    | none => none)

/-- Modelled from the spec (4.3): `Caliper.generateEntity` renders an
entity from an attribute mapping and an extensions mapping, pruning the
absent attributes of both. -/
def generateEntity (attrs : List (String × Option Json)) (ext : List (String × Option Json)) : Json :=
  .obj (pruneFields attrs ++ pruneFields ext)

/-- The generic actor supplied with an event. -/
structure Actor where
  id : String
  name : Option String
  deriving DecidableEq, Repr

/-- Modelled from the spec (4.3): `XAPI.getUserId` extracts the stable
user identifier from the generic actor. -/
def getUserId (a : Actor) : String :=
  a.id

/-- Modelled from the spec (4.3): `Caliper.generatePerson` maps the actor
to the structured format's person shape, pruning absent attributes and
using the same underlying user identifier as the flat format. -/
def generatePerson (a : Actor) : Json :=
  .obj (pruneFields [("type", some (.str "Person")), ("id", some (.str (getUserId a))), ("name", a.name.map Json.str)])

/-- Modelled from the spec: the flat-format actor rendering, built from
the same user identifier accessor, with absent attributes pruned. -/
def renderXapiActor (a : Actor) : Json :=
  .obj (pruneFields [("id", some (.str (getUserId a))), ("name", a.name.map Json.str)])

/-- Modelled from the spec: `StatementUtil.generateDate` normalizes the
event timestamp (timestamps are carried as ISO strings here). -/
def generateDate (t : String) : String :=
  t

/-- The caller-supplied event: actor, timestamp and metadata mapping. -/
structure Statement where
  actor : Actor
  timestamp : String
  metadata : Metadata

/-- The caller-supplied platform configuration. -/
structure Config where
  platform : String

/-- A metadata value propagated into a template: absent (or null) values
propagate as absence so the renderers can prune them. -/
def mdJson (md : Metadata) (k : String) : Option Json :=
  match getField md k with
  | none => none
  | some .null => none
  | some (.text s) => some (.str s)
  | some (.num q) => some (.num q)
  | some (.date d) => some (.str d)
  | some (.uri u) => some (.str u)
  | some (.seq xs) => some (.arr xs)

/-- The flat-format object of a descriptor: either a reference to a
derived identifier (view, submit, grade, feedback) or an inline field
list (create). -/
inductive XObj where
  | ref (id : String)
  | fields (l : List (String × Option Json))

/-- A flat-format result field value: a leaf value or a nested object. -/
inductive RVal where
  | leaf (v : Option Json)
  | nested (l : List (String × Option Json))

/-- The flat-format template of a descriptor. -/
structure XapiTemplate where
  uuid : List (Option Value)
  object : XObj
  result : Option (List (String × RVal))

/-- The structured-format template of a descriptor: the event type (absent
when the builder declares none) and the already-rendered entities. -/
structure CaliperTemplate where
  type : Option String
  object : Json
  generated : Option Json
  target : Option Json

/-- A per-event statement descriptor: verb plus one template per target
format. -/
structure Descriptor where
  verb : String
  xapi : XapiTemplate
  caliper : CaliperTemplate

/-- Render a flat-format object template, pruning absent fields. -/
def renderXObj : XObj → Json
  | .ref i => .str i
  | .fields l => .obj (pruneFields l)

/-- Render one result field; an absent leaf is pruned, a nested object is
rendered with its own absent fields pruned. -/
def renderRVal : RVal → Option Json
  | .leaf v => v
  | .nested l => some (.obj (pruneFields l))

/-- Render the flat-format result fields, pruning the absent ones. -/
def renderResultFields (l : List (String × RVal)) : Json :=
  .obj (l.filterMap (fun p => (renderRVal p.2).map (fun j => (p.1, j))))

/-- The rendered flat-format statement: envelope (derived identifier,
actor, verb, timestamp) plus object and optional result. -/
structure XapiStatement where
  id : String
  actor : Json
  verb : String
  timestamp : String
  object : Json
  result : Option Json

/-- The rendered structured-format statement: envelope (primary
identifier, optional event type, actor, timestamp) plus its entities. -/
structure CaliperStatement where
  id : String
  type : Option String
  actor : Json
  timestamp : String
  object : Json
  generated : Option Json
  target : Option Json

/-- The dual-format rendered statement handed to the transport. -/
structure Rendered where
  xapi : XapiStatement
  caliper : CaliperStatement

/-- Modelled from the spec (4.4): the pure rendering part of
`StatementUtil.processStatement`: derive the primary identifier from the
platform, the verb and the flat template's part list, then assemble both
payloads, attaching the primary identifier to both envelopes. -/
def renderStatement (config : Config) (s : Statement) (d : Descriptor) : Rendered :=
  { xapi :=
      { id := deriveId config.platform d.verb d.xapi.uuid
        actor := renderXapiActor s.actor
        verb := d.verb
        timestamp := s.timestamp
        object := renderXObj d.xapi.object
        result := d.xapi.result.map renderResultFields }
    caliper :=
      { id := deriveId config.platform d.verb d.xapi.uuid
        type := d.caliper.type
        actor := generatePerson s.actor
        timestamp := s.timestamp
        object := d.caliper.object
        generated := d.caliper.generated
        target := d.caliper.target } }

/-- A transport error is an opaque reason. -/
abbrev TransportError := String

/-- The transport collaborator: consumes the dual-format statement and
reports a single outcome, none on success. -/
abbrev Transport := Rendered → Option TransportError

/-- The single outcome delivered to the caller's callback: a validation
error before any dispatch, the transport's error, or the result. -/
inductive Outcome where
  | validationFailed (e : ValidationError)
  | transportFailed (t : TransportError)
  | success (r : Rendered)

/-- Modelled from the spec (4.4): `StatementUtil.processStatement` renders
the dual-format statement, hands it to the transport once, and reports the
transport's outcome. -/
def processStatement (config : Config) (s : Statement) (d : Descriptor) (transport : Transport) : Outcome :=
  match transport (renderStatement config s d) with
  | some err => .transportFailed err
  | none => .success (renderStatement config s d)

/-- Modelled from the spec (external interfaces): the controlled verb
vocabulary table (static external data). -/
def VERBS.CREATED : String := "created"

/-- Modelled from the spec: the viewed verb. -/
def VERBS.VIEWED : String := "viewed"

/-- Modelled from the spec: the submitted verb. -/
def VERBS.SUBMITTED : String := "submitted"

/-- Modelled from the spec: the scored verb. -/
def VERBS.SCORED : String := "scored"

/-- Modelled from the spec: the commented verb. -/
def VERBS.COMMENTED : String := "commented"

/-- An entry of the flat-format activity type table. -/
structure ActivityType where
  id : String

/-- Modelled from the spec: the assessment activity type. -/
def ACTIVITY_TYPES.ASSESSMENT : ActivityType :=
  ⟨"http://adlnet.gov/expapi/activities/assessment"⟩

/-- Modelled from the spec: structured-format event type, assessment. -/
def CaliperEventType.ASSESSMENT : String := "AssessmentEvent"

/-- Modelled from the spec: structured-format event type, viewed. -/
def CaliperEventType.VIEWED : String := "ViewedEvent"

/-- Modelled from the spec: structured-format digital resource type. -/
def CaliperDigitalResourceType.ASSIGNABLE_DIGITAL_RESOURCE : String :=
  "AssignableDigitalResource"

/-- Modelled from the spec: structured-format entity type, attempt. -/
def CaliperEntityType.ATTEMPT : String := "Attempt"

/-- Modelled from the spec: structured-format entity type, result. -/
def CaliperEntityType.RESULT : String := "Result"

/-- The extension key emitted for the accepted submission types. -/
def canvasSubmissionTypes : String :=
  "https://canvas.instructure.com/xapi/assignments/submissions_types"

/-- The validation rule set of `create` (assignment.js lines 24-49). -/
def createRules : List (String × Rule) :=
  [("id", ⟨.uri, true⟩),
   ("title", ⟨.string, true⟩),
   ("description", ⟨.string, false⟩),
   ("due_at", ⟨.date, false⟩),
   ("max_points", ⟨.number, false⟩),
   ("submission_types", ⟨.array, false⟩)]

/-- The statement descriptor of `create` (assignment.js lines 54-79). -/
def createDescriptor (_config : Config) (s : Statement) : Descriptor :=
  { verb := VERBS.CREATED
    xapi :=
      { uuid := [getField s.metadata "id"]
        object := .fields
          [("id", mdJson s.metadata "id"),
           ("type", some (.str ACTIVITY_TYPES.ASSESSMENT.id)),
           ("name", mdJson s.metadata "title"),
           ("description", mdJson s.metadata "description"),
           (canvasSubmissionTypes, mdJson s.metadata "submission_types")]
        result := none }
    caliper :=
      { type := some CaliperEventType.ASSESSMENT
        object := generateEntity
          [("type", some (.str CaliperDigitalResourceType.ASSIGNABLE_DIGITAL_RESOURCE)),
           ("id", mdJson s.metadata "id"),
           ("name", mdJson s.metadata "title"),
           ("description", mdJson s.metadata "description"),
           ("dateToSubmit", mdJson s.metadata "due_at"),
           ("maxScore", mdJson s.metadata "max_points")]
          [(canvasSubmissionTypes, mdJson s.metadata "submission_types")]
        generated := none
        target := none } }

/-- The `create` builder (assignment.js lines 22-80): validate, then hand
the descriptor to the statement processor. -/
def create (config : Config) (s : Statement) (transport : Transport) : Outcome :=
  match validate createRules s.metadata with
  | some e => .validationFailed e
  | none => processStatement config s (createDescriptor config s) transport

/-- The validation rule set of `view` (assignment.js lines 92-97). -/
def viewRules : List (String × Rule) :=
  [("assignment", ⟨.uri, true⟩)]

/-- The statement descriptor of `view` (assignment.js lines 102-115). -/
def viewDescriptor (config : Config) (s : Statement) : Descriptor :=
  { verb := VERBS.VIEWED
    xapi :=
      { uuid := [some (.text s.timestamp), getField s.metadata "assignment",
                 some (.text (getUserId s.actor))]
        object := .ref (generateUuid config.platform VERBS.CREATED [getField s.metadata "assignment"])
        result := none }
    caliper :=
      { type := some CaliperEventType.VIEWED
        object := generateEntity
          [("type", some (.str CaliperDigitalResourceType.ASSIGNABLE_DIGITAL_RESOURCE)),
           ("id", mdJson s.metadata "assignment")]
          []
        generated := none
        target := none } }

/-- The `view` builder (assignment.js lines 90-116). -/
def view (config : Config) (s : Statement) (transport : Transport) : Outcome :=
  match validate viewRules s.metadata with
  | some e => .validationFailed e
  | none => processStatement config s (viewDescriptor config s) transport

/-- The validation rule set of `submit` (assignment.js lines 130-143). -/
def submitRules : List (String × Rule) :=
  [("id", ⟨.uri, true⟩),
   ("assignment", ⟨.uri, true⟩),
   ("submission", ⟨.string, false⟩)]

/-- The statement descriptor of `submit` (assignment.js lines 148-173). -/
def submitDescriptor (config : Config) (s : Statement) : Descriptor :=
  { verb := VERBS.SUBMITTED
    xapi :=
      { uuid := [getField s.metadata "id"]
        object := .ref (generateUuid config.platform VERBS.CREATED [getField s.metadata "assignment"])
        result := some
          [("completion", .leaf (some (.bool true))),
           ("response", .leaf (mdJson s.metadata "submission"))] }
    caliper :=
      { type := some CaliperEventType.ASSESSMENT
        object := generateEntity
          [("type", some (.str CaliperDigitalResourceType.ASSIGNABLE_DIGITAL_RESOURCE)),
           ("id", mdJson s.metadata "assignment")]
          []
        generated := some (generateEntity
          [("type", some (.str CaliperEntityType.ATTEMPT)),
           ("id", mdJson s.metadata "id"),
           ("description", mdJson s.metadata "submission"),
           ("assignable", mdJson s.metadata "assignment"),
           ("endedAtTime", some (.str (generateDate s.timestamp))),
           ("actor", some (generatePerson s.actor))]
          [])
        target := none } }

/-- The `submit` builder (assignment.js lines 128-174). -/
def submit (config : Config) (s : Statement) (transport : Transport) : Outcome :=
  match validate submitRules s.metadata with
  | some e => .validationFailed e
  | none => processStatement config s (submitDescriptor config s) transport

/-- The validation rule set of `grade` (assignment.js lines 190-211). -/
def gradeRules : List (String × Rule) :=
  [("id", ⟨.uri, true⟩),
   ("assignment", ⟨.uri, true⟩),
   ("grade", ⟨.number, true⟩),
   ("grade_min", ⟨.number, false⟩),
   ("grade_max", ⟨.number, false⟩)]

/-- Truthiness of a metadata value, as the source's `if
(statement.metadata.grade_max)` tests it: absent, null, zero and the
empty string are falsy. -/
def truthy : Option Value → Bool
  | none => false
  | some .null => false
  | some (.text s) => !s.isEmpty
  | some (.num q) => q ≠ 0
  | some (.date _) => true
  | some (.uri u) => !u.isEmpty
  | some (.seq _) => true

/-- The numeric content of a metadata value (the callers divide only
validated numbers). -/
def ratOf : Option Value → Rat
  | some (.num q) => q
  | _ => 0

/-- The scaled score computed by `grade` (assignment.js lines 216-219):
null unless `grade_max` is truthy, else `grade / grade_max`.  The source's
null is the absent case here. -/
def gradeScaledScore (md : Metadata) : Option Rat :=
  if truthy (getField md "grade_max") then
    some (ratOf (getField md "grade") / ratOf (getField md "grade_max"))
  else
    none

/-- The statement descriptor of `grade` (assignment.js lines 221-249). -/
def gradeDescriptor (config : Config) (s : Statement) : Descriptor :=
  { verb := VERBS.SCORED
    xapi :=
      { uuid := [getField s.metadata "id"]
        object := .ref (generateUuid config.platform VERBS.SUBMITTED [getField s.metadata "id"])
        result := some
          [("score", .nested
            [("raw", mdJson s.metadata "grade"),
             ("min", mdJson s.metadata "grade_min"),
             ("max", mdJson s.metadata "grade_max"),
             ("scaled", (gradeScaledScore s.metadata).map Json.num)])] }
    caliper :=
      { type := some ""
        object := generateEntity
          [("type", some (.str CaliperEntityType.ATTEMPT)),
           ("id", mdJson s.metadata "id")]
          []
        generated := some (generateEntity
          [("type", some (.str CaliperEntityType.RESULT)),
           ("assignable", mdJson s.metadata "assignment"),
           ("totalScore", mdJson s.metadata "grade"),
           ("normalScore", (gradeScaledScore s.metadata).map Json.num),
           ("scoredBy", some (generatePerson s.actor))]
          [])
        target := none } }

/-- The `grade` builder (assignment.js lines 188-250); namespaced because
the bare name is taken by the ambient mathematical library. -/
def Assignment.grade (config : Config) (s : Statement) (transport : Transport) : Outcome :=
  match validate gradeRules s.metadata with
  | some e => .validationFailed e
  | none => processStatement config s (gradeDescriptor config s) transport

/-- The validation rule set of `feedback` (assignment.js lines 264-277). -/
def feedbackRules : List (String × Rule) :=
  [("id", ⟨.uri, true⟩),
   ("submission", ⟨.uri, true⟩),
   ("feedback", ⟨.string, true⟩)]

/-- The statement descriptor of `feedback` (assignment.js lines 282-301);
its structured-format template declares no event type. -/
def feedbackDescriptor (config : Config) (s : Statement) : Descriptor :=
  { verb := VERBS.COMMENTED
    xapi :=
      { uuid := [getField s.metadata "id"]
        object := .ref (generateUuid config.platform VERBS.SUBMITTED [getField s.metadata "submission"])
        result := some
          [("response", .leaf (mdJson s.metadata "feedback"))] }
    caliper :=
      { type := none
        object := generateEntity
          [("id", mdJson s.metadata "id"),
           ("description", mdJson s.metadata "feedback")]
          []
        generated := none
        target := some (generateEntity
          [("type", some (.str CaliperEntityType.ATTEMPT)),
           ("id", mdJson s.metadata "id")]
          []) } }

/-- The `feedback` builder (assignment.js lines 262-302). -/
def feedback (config : Config) (s : Statement) (transport : Transport) : Outcome :=
  match validate feedbackRules s.metadata with
  | some e => .validationFailed e
  | none => processStatement config s (feedbackDescriptor config s) transport

/-- The pure rendering of a `create` call that passed validation. -/
def renderCreate (config : Config) (s : Statement) : Rendered :=
  renderStatement config s (createDescriptor config s)

/-- The pure rendering of a `view` call that passed validation. -/
def renderView (config : Config) (s : Statement) : Rendered :=
  renderStatement config s (viewDescriptor config s)

/-- The pure rendering of a `submit` call that passed validation. -/
def renderSubmit (config : Config) (s : Statement) : Rendered :=
  renderStatement config s (submitDescriptor config s)

/-- The pure rendering of a `grade` call that passed validation. -/
def renderGrade (config : Config) (s : Statement) : Rendered :=
  renderStatement config s (gradeDescriptor config s)

/-- The pure rendering of a `feedback` call that passed validation. -/
def renderFeedback (config : Config) (s : Statement) : Rendered :=
  renderStatement config s (feedbackDescriptor config s)

/-- First value under a key in a rendered field list. -/
def lookupJson (l : List (String × Json)) (k : String) : Option Json :=
  match l with
  | [] => none
  | (k', v) :: rest => if k' = k then some v else lookupJson rest k

/-- Field lookup on a rendered JSON object. -/
def Json.getF : Json → String → Option Json
  | .obj l, k => lookupJson l k
  | _, _ => none

/-- The normalized score of a rendered flat-format statement: the
`scaled` field of its result's `score` object. -/
def xapiScaled (r : Rendered) : Option Json :=
  r.xapi.result.bind (fun j => (j.getF "score").bind (fun sc => sc.getF "scaled"))

/-- The normalized score of a rendered structured-format statement: the
`normalScore` attribute of its generated entity. -/
def caliperNormal (r : Rendered) : Option Json :=
  r.caliper.generated.bind (fun j => j.getF "normalScore")

/-- A sample platform configuration. -/
def exConfig : Config := ⟨"acme"⟩

/-- A sample actor. -/
def exActor : Actor := ⟨"u1", none⟩

/-- Metadata of a valid `create` call carrying no description. -/
def exCreateMd : Metadata := [("id", .uri "https://x/a1"), ("title", .text "Essay")]

/-- A valid `create` event without a description. -/
def exCreate : Statement := ⟨exActor, "2020-01-01T00:00:00Z", exCreateMd⟩

/-- The same `create` event with an extra metadata field but the same id. -/
def exCreateMd2 : Metadata := [("id", .uri "https://x/a1"), ("title", .text "Final essay")]

/-- A second `create` event sharing only the id. -/
def exCreate2 : Statement := ⟨exActor, "2020-01-02T00:00:00Z", exCreateMd2⟩

/-- Metadata of a `submit` call that is missing its assignment. -/
def exSubmitMdMissing : Metadata := [("id", .uri "https://x/s1")]

/-- A `submit` event missing the required assignment field. -/
def exSubmitMissing : Statement := ⟨exActor, "T", exSubmitMdMissing⟩

/-- Metadata of a `grade` call with grade 45 out of 50. -/
def exGradeMd : Metadata :=
  [("id", .uri "https://x/s1"), ("assignment", .uri "https://x/a1"),
   ("grade", .num 45), ("grade_max", .num 50)]

/-- A `grade` event with a maximum grade supplied. -/
def exGrade : Statement := ⟨exActor, "T", exGradeMd⟩

/-- Metadata of a `grade` call without a maximum grade. -/
def exGradeMdNoMax : Metadata :=
  [("id", .uri "https://x/s1"), ("assignment", .uri "https://x/a1"), ("grade", .num 45)]

/-- A `grade` event with no maximum grade supplied. -/
def exGradeNoMax : Statement := ⟨exActor, "T", exGradeMdNoMax⟩

/-- Metadata whose id, assignment and submission all name one URI. -/
def exLinkMd : Metadata :=
  [("id", .uri "https://x/a1"), ("assignment", .uri "https://x/a1"),
   ("submission", .uri "https://x/a1")]

/-- An event whose id, assignment and submission coincide. -/
def exLink : Statement := ⟨exActor, "T", exLinkMd⟩

/-- Metadata of a valid `view` call. -/
def exViewMd : Metadata := [("assignment", .uri "https://x/a1")]

/-- A valid `view` event. -/
def exView : Statement := ⟨exActor, "T", exViewMd⟩

/-- The same `view` event with extra metadata, agreeing on timestamp,
assignment and actor. -/
def exView2 : Statement := ⟨exActor, "T", [("assignment", .uri "https://x/a1"), ("extra", .text "x")]⟩

/-- A transport that always succeeds. -/
def exTransport : Transport := fun _ => none

/-- A transport that always fails. -/
def exTransportFail : Transport := fun _ => some "down"

/-- Checking one field succeeds exactly when the field is present if
required, and type-conformant whenever present. -/
theorem fieldError_none_iff (v : Option Value) (r : Rule) :
    fieldError v r = none ↔
      ((r.required = true → isAbsent v = false) ∧
       (isAbsent v = false → typeOfMatches v r.ftype = true)) := by
  unfold fieldError
  cases h1 : isAbsent v <;> cases h2 : r.required <;>
    cases h3 : typeOfMatches v r.ftype <;> simp [h1, h2, h3]

/-- The validator accepts exactly when every declared rule checks out. -/
theorem validate_eq_none_iff (rules : List (String × Rule)) (md : Metadata) :
    validate rules md = none ↔ ∀ p ∈ rules, fieldError (getField md p.1) p.2 = none := by
  induction rules with
  | nil => simp [validate]
  | cons hd tl ih =>
    obtain ⟨name, r⟩ := hd
    unfold validate
    cases h : fieldError (getField md name) r with
    | some pe =>
      obtain ⟨reason, expected⟩ := pe
      simp only [List.mem_cons]
      constructor
      · intro hc; exact absurd hc (by simp)
      · intro hall
        have := hall (name, r) (Or.inl rfl)
        simp_all
    | none =>
      rw [ih]
      constructor
      · intro hall p hp
        rcases List.mem_cons.mp hp with h1 | h2
        · subst h1; exact h
        · exact hall p h2
      · intro hall p hp
        exact hall p (List.mem_cons_of_mem _ hp)

/-- On failure, the validator reports the first failing rule in declared
order: all earlier rules check out, and the error names that rule's field,
reason, and expected type. -/
theorem validate_first_error (rules : List (String × Rule)) (md : Metadata)
    (e : ValidationError) (h : validate rules md = some e) :
    ∃ pre p post, rules = pre ++ p :: post ∧
      (∀ q ∈ pre, fieldError (getField md q.1) q.2 = none) ∧
      fieldError (getField md p.1) p.2 = some (e.reason, e.expected) ∧
      e.field = p.1 := by
  induction rules with
  | nil => simp [validate] at h
  | cons hd tl ih =>
    obtain ⟨name, r⟩ := hd
    unfold validate at h
    cases hf : fieldError (getField md name) r with
    | some pe =>
      obtain ⟨reason, expected⟩ := pe
      rw [hf] at h
      refine ⟨[], (name, r), tl, rfl, by simp, ?_, ?_⟩
      · cases h
        simpa using hf
      · cases h
        rfl
    | none =>
      rw [hf] at h
      obtain ⟨pre, p, post, heq, hpre, hp, hfld⟩ := ih h
      refine ⟨(name, r) :: pre, p, post, by rw [heq]; rfl, ?_, hp, hfld⟩
      intro q hq
      rcases List.mem_cons.mp hq with h1 | h2
      · subst h1; exact hf
      · exact hpre q h2

/-- The validator consults the metadata only at the declared fields: two
metadata mappings agreeing on every declared field validate identically. -/
theorem validate_congr (rules : List (String × Rule)) (md md' : Metadata)
    (h : ∀ p ∈ rules, getField md p.1 = getField md' p.1) :
    validate rules md = validate rules md' := by
  induction rules with
  | nil => rfl
  | cons hd tl ih =>
    obtain ⟨name, r⟩ := hd
    unfold validate
    rw [h (name, r) (List.mem_cons_self _ _)]
    cases fieldError (getField md' name) r with
    | some pe => rfl
    | none => exact ih (fun p hp => h p (List.mem_cons_of_mem _ hp))

/-- A key all of whose supplied values are absent does not survive
pruning. -/
theorem lookupJson_pruneFields_none (l : List (String × Option Json)) (k : String)
    (h : ∀ v, (k, v) ∈ l → v = none) :
    lookupJson (pruneFields l) k = none := by
  induction l with
  | nil => rfl
  | cons hd tl ih =>
    obtain ⟨k', v⟩ := hd
    cases v with
    | none =>
      have hpr : pruneFields ((k', none) :: tl) = pruneFields tl := by
        simp [pruneFields]
      rw [hpr]
      exact ih (fun w hw => h w (List.mem_cons_of_mem _ hw))
    | some j =>
      have hpr : pruneFields ((k', some j) :: tl) = (k', j) :: pruneFields tl := by
        simp [pruneFields]
      rw [hpr]
      unfold lookupJson
      by_cases hk : k' = k
      · subst hk
        have := h (some j) (List.mem_cons_self _ _)
        simp at this
      · simp only [hk, if_false]
        exact ih (fun w hw => h w (List.mem_cons_of_mem _ hw))

/-- Lookup distributes over appended field lists. -/
theorem lookupJson_append (a b : List (String × Json)) (k : String) :
    lookupJson (a ++ b) k =
      (match lookupJson a k with
       | some v => some v
       | none => lookupJson b k) := by
  induction a with
  | nil => simp [lookupJson]
  | cons hd tl ih =>
    obtain ⟨k', v⟩ := hd
    by_cases hk : k' = k <;> simp [lookupJson, hk, ih]

/-- An entity rendered from attribute and extension lists in which every
value supplied for a key is absent carries no field under that key. -/
theorem generateEntity_getF_none (attrs ext : List (String × Option Json)) (k : String)
    (ha : ∀ v, (k, v) ∈ attrs → v = none) (he : ∀ v, (k, v) ∈ ext → v = none) :
    (generateEntity attrs ext).getF k = none := by
  show lookupJson (pruneFields attrs ++ pruneFields ext) k = none
  rw [lookupJson_append, lookupJson_pruneFields_none attrs k ha,
      lookupJson_pruneFields_none ext k he]

/-- C3: for every rule set R and metadata mapping M, `validate R M`
returns no error iff every required field of R is present in M (not
absent, null or empty string) with its declared type and every present
declared field matches its declared type; fields of M not listed in R are
ignored (the result depends only on the declared fields); and on failure
exactly one error is returned, the first encountered in R's declared
order. -/
theorem validate_characterization (R : List (String × Rule)) (md md' : Metadata) :
    (validate R md = none ↔
      ∀ p ∈ R, (p.2.required = true → isAbsent (getField md p.1) = false) ∧
        (isAbsent (getField md p.1) = false → typeOfMatches (getField md p.1) p.2.ftype = true)) ∧
    (∀ e, validate R md = some e → ∃ pre p post, R = pre ++ p :: post ∧
      (∀ q ∈ pre, fieldError (getField md q.1) q.2 = none) ∧
      fieldError (getField md p.1) p.2 = some (e.reason, e.expected) ∧ e.field = p.1) ∧
    ((∀ p ∈ R, getField md p.1 = getField md' p.1) → validate R md = validate R md') := by
  refine ⟨?_, ?_, ?_⟩
  · rw [validate_eq_none_iff]
    constructor
    · intro h p hp
      exact (fieldError_none_iff _ _).mp (h p hp)
    · intro h p hp
      exact (fieldError_none_iff _ _).mpr (h p hp)
  · intro e h
    exact validate_first_error R md e h
  · intro h
    exact validate_congr R md md' h

/-- Witness for C3: the characterization accepts a concrete valid submit
metadata mapping. -/
theorem validate_characterization_witness :
    validate submitRules [("id", Value.uri "https://x/s1"), ("assignment", Value.uri "https://x/a1")] = none :=
  (validate_characterization submitRules
    [("id", Value.uri "https://x/s1"), ("assignment", Value.uri "https://x/a1")] []).1.mpr (by decide)

/-- C9: the grade builder passes an empty string as the structured-format
event type, and the feedback builder's structured-format descriptor
carries no type at all; neither supplies a vocabulary term. -/
theorem grade_feedback_caliper_type (c : Config) (s : Statement) :
    (gradeDescriptor c s).caliper.type = some "" ∧
    (feedbackDescriptor c s).caliper.type = none ∧
    (renderGrade c s).caliper.type = some "" ∧
    (renderFeedback c s).caliper.type = none :=
  ⟨rfl, rfl, rfl, rfl⟩

/-- C2: identifier derivation is pure, so two create calls with identical
config and identical `metadata.id` render identical primary statement
identifiers in both the flat-format and the structured-format
envelope. -/
theorem create_idempotent_identifier (c : Config) (s₁ s₂ : Statement)
    (h : getField s₁.metadata "id" = getField s₂.metadata "id") :
    (renderCreate c s₁).xapi.id = (renderCreate c s₂).xapi.id ∧
    (renderCreate c s₁).caliper.id = (renderCreate c s₂).caliper.id := by
  constructor
  · show deriveId c.platform VERBS.CREATED [getField s₁.metadata "id"] =
        deriveId c.platform VERBS.CREATED [getField s₂.metadata "id"]
    rw [h]
  · show deriveId c.platform VERBS.CREATED [getField s₁.metadata "id"] =
        deriveId c.platform VERBS.CREATED [getField s₂.metadata "id"]
    rw [h]

/-- Witness for C2: two concrete create events sharing only their id get
the same identifiers in both envelopes. -/
theorem create_idempotent_identifier_witness :
    getField exCreate.metadata "id" = getField exCreate2.metadata "id" ∧
    (renderCreate exConfig exCreate).xapi.id = (renderCreate exConfig exCreate2).xapi.id ∧
    (renderCreate exConfig exCreate).caliper.id = (renderCreate exConfig exCreate2).caliper.id :=
  ⟨by decide,
   (create_idempotent_identifier exConfig exCreate exCreate2 (by decide)).1,
   (create_idempotent_identifier exConfig exCreate exCreate2 (by decide)).2⟩

/-- C5: the flat-format identifier-part list of the view builder is
exactly the ordered sequence of event timestamp, assignment URI and the
actor's user identifier; hence two view calls agreeing on timestamp,
assignment, actor and config derive equal flat-format identifiers. -/
theorem view_identifier_parts (c : Config) (s s₁ s₂ : Statement)
    (h1 : s₁.timestamp = s₂.timestamp)
    (h2 : getField s₁.metadata "assignment" = getField s₂.metadata "assignment")
    (h3 : s₁.actor = s₂.actor) :
    (viewDescriptor c s).xapi.uuid =
      [some (.text s.timestamp), getField s.metadata "assignment",
       some (.text (getUserId s.actor))] ∧
    (renderView c s₁).xapi.id = (renderView c s₂).xapi.id := by
  refine ⟨rfl, ?_⟩
  show deriveId c.platform VERBS.VIEWED
      [some (.text s₁.timestamp), getField s₁.metadata "assignment",
       some (.text (getUserId s₁.actor))] =
    deriveId c.platform VERBS.VIEWED
      [some (.text s₂.timestamp), getField s₂.metadata "assignment",
       some (.text (getUserId s₂.actor))]
  rw [h1, h2, h3]

/-- Witness for C5: two concrete view events agreeing on timestamp,
assignment and actor derive the same flat-format identifier. -/
theorem view_identifier_parts_witness :
    exView.timestamp = exView2.timestamp ∧
    getField exView.metadata "assignment" = getField exView2.metadata "assignment" ∧
    exView.actor = exView2.actor ∧
    (renderView exConfig exView).xapi.id = (renderView exConfig exView2).xapi.id :=
  ⟨rfl, by decide, by decide,
   (view_identifier_parts exConfig exView exView exView2 rfl (by decide) (by decide)).2⟩

/-- C10: the flat-format object of view and submit referencing assignment
u equals the primary identifier create derives for metadata.id = u, and
the flat-format object of grade and feedback equals the primary
identifier submit derives for the referenced submission. -/
theorem cross_statement_identifier_linkage (c : Config) (s s' : Statement) :
    (getField s'.metadata "id" = getField s.metadata "assignment" →
      (renderView c s).xapi.object = .str ((renderCreate c s').xapi.id) ∧
      (renderSubmit c s).xapi.object = .str ((renderCreate c s').xapi.id)) ∧
    (getField s'.metadata "id" = getField s.metadata "id" →
      (renderGrade c s).xapi.object = .str ((renderSubmit c s').xapi.id)) ∧
    (getField s'.metadata "id" = getField s.metadata "submission" →
      (renderFeedback c s).xapi.object = .str ((renderSubmit c s').xapi.id)) := by
  refine ⟨fun h => ⟨?_, ?_⟩, fun h => ?_, fun h => ?_⟩
  · show Json.str (deriveId c.platform VERBS.CREATED [getField s.metadata "assignment"]) =
        Json.str (deriveId c.platform VERBS.CREATED [getField s'.metadata "id"])
    rw [h]
  · show Json.str (deriveId c.platform VERBS.CREATED [getField s.metadata "assignment"]) =
        Json.str (deriveId c.platform VERBS.CREATED [getField s'.metadata "id"])
    rw [h]
  · show Json.str (deriveId c.platform VERBS.SUBMITTED [getField s.metadata "id"]) =
        Json.str (deriveId c.platform VERBS.SUBMITTED [getField s'.metadata "id"])
    rw [h]
  · show Json.str (deriveId c.platform VERBS.SUBMITTED [getField s.metadata "submission"]) =
        Json.str (deriveId c.platform VERBS.SUBMITTED [getField s'.metadata "id"])
    rw [h]

/-- Witness for C10: with one URI serving as id, assignment and
submission, all four linkage equalities hold concretely. -/
theorem cross_statement_identifier_linkage_witness :
    getField exLink.metadata "id" = getField exLink.metadata "assignment" ∧
    getField exLink.metadata "id" = getField exLink.metadata "submission" ∧
    (renderView exConfig exLink).xapi.object = .str ((renderCreate exConfig exLink).xapi.id) ∧
    (renderSubmit exConfig exLink).xapi.object = .str ((renderCreate exConfig exLink).xapi.id) ∧
    (renderGrade exConfig exLink).xapi.object = .str ((renderSubmit exConfig exLink).xapi.id) ∧
    (renderFeedback exConfig exLink).xapi.object = .str ((renderSubmit exConfig exLink).xapi.id) :=
  ⟨by decide, by decide,
   ((cross_statement_identifier_linkage exConfig exLink exLink).1 (by decide)).1,
   ((cross_statement_identifier_linkage exConfig exLink exLink).1 (by decide)).2,
   (cross_statement_identifier_linkage exConfig exLink exLink).2.1 (by decide),
   (cross_statement_identifier_linkage exConfig exLink exLink).2.2 (by decide)⟩

/-- C7: create validates exactly the six declared fields — id (uri,
required), title (string, required), description (string, optional),
due_at (date, optional), max_points (number, optional), submission_types
(array, optional) — and passes validation iff the required fields are
present with these types and every supplied optional field has its
declared type. -/
theorem create_validation_exact (md : Metadata) :
    createRules =
      [("id", (⟨.uri, true⟩ : Rule)), ("title", ⟨.string, true⟩),
       ("description", ⟨.string, false⟩), ("due_at", ⟨.date, false⟩),
       ("max_points", ⟨.number, false⟩), ("submission_types", ⟨.array, false⟩)] ∧
    (validate createRules md = none ↔
      (isAbsent (getField md "id") = false ∧ typeOfMatches (getField md "id") .uri = true) ∧
      (isAbsent (getField md "title") = false ∧ typeOfMatches (getField md "title") .string = true) ∧
      (isAbsent (getField md "description") = false → typeOfMatches (getField md "description") .string = true) ∧
      (isAbsent (getField md "due_at") = false → typeOfMatches (getField md "due_at") .date = true) ∧
      (isAbsent (getField md "max_points") = false → typeOfMatches (getField md "max_points") .number = true) ∧
      (isAbsent (getField md "submission_types") = false → typeOfMatches (getField md "submission_types") .array = true)) := by
  refine ⟨rfl, ?_⟩
  rw [validate_eq_none_iff]
  simp [createRules, fieldError_none_iff]
  constructor
  · rintro ⟨⟨a1, b1⟩, ⟨a2, b2⟩, rest⟩
    exact ⟨⟨a1, b1 a1⟩, ⟨a2, b2 a2⟩, rest⟩
  · rintro ⟨⟨a1, b1⟩, ⟨a2, b2⟩, rest⟩
    exact ⟨⟨a1, fun _ => b1⟩, ⟨a2, fun _ => b2⟩, rest⟩

/-- Witness for C7: a concrete metadata mapping with id and title passes
create's validation. -/
theorem create_validation_exact_witness :
    validate createRules exCreateMd = none :=
  (create_validation_exact exCreateMd).2.mpr (by decide)

/-- C6: rendered entity and person objects omit every attribute whose
supplied value is absent (no null or empty placeholders) — for entities
over arbitrary attribute and extension lists, and for both person
renderings of an actor with no name — and a create call without a
description yields payloads in both formats containing no description
field. -/
theorem optional_attribute_pruning (attrs ext : List (String × Option Json)) (k : String)
    (c : Config) (s : Statement) (a : Actor)
    (ha : ∀ v, (k, v) ∈ attrs → v = none) (he : ∀ v, (k, v) ∈ ext → v = none)
    (hd : getField s.metadata "description" = none) (hn : a.name = none) :
    (generateEntity attrs ext).getF k = none ∧
    (generatePerson a).getF "name" = none ∧
    (renderXapiActor a).getF "name" = none ∧
    ((renderCreate c s).xapi.object).getF "description" = none ∧
    ((renderCreate c s).caliper.object).getF "description" = none := by
  have hdm : mdJson s.metadata "description" = none := by simp [mdJson, hd]
  refine ⟨generateEntity_getF_none attrs ext k ha he, ?_, ?_, ?_, ?_⟩
  · simp [generatePerson, pruneFields, Json.getF, lookupJson, hn]
  · simp [renderXapiActor, pruneFields, Json.getF, lookupJson, hn]
  · show lookupJson (pruneFields
      [("id", mdJson s.metadata "id"),
       ("type", some (.str ACTIVITY_TYPES.ASSESSMENT.id)),
       ("name", mdJson s.metadata "title"),
       ("description", mdJson s.metadata "description"),
       (canvasSubmissionTypes, mdJson s.metadata "submission_types")]) "description" = none
    apply lookupJson_pruneFields_none
    intro v hv
    simp [canvasSubmissionTypes, hdm] at hv
    exact hv
  · apply generateEntity_getF_none
    · intro v hv
      simp [hdm] at hv
      exact hv
    · intro v hv
      simp [canvasSubmissionTypes] at hv

/-- Witness for C6: a concrete create call without a description renders
no description field in either payload, an entity whose only supplied
value for a key is absent drops that key, and a nameless actor renders
with no name in either person shape. -/
theorem optional_attribute_pruning_witness :
    ((renderCreate exConfig exCreate).xapi.object).getF "description" = none ∧
    ((renderCreate exConfig exCreate).caliper.object).getF "description" = none ∧
    (generateEntity [("description", none)] []).getF "description" = none ∧
    (generatePerson exActor).getF "name" = none ∧
    (renderXapiActor exActor).getF "name" = none :=
  ⟨(optional_attribute_pruning [("description", none)] [] "description" exConfig exCreate exActor
      (by simp) (by simp) (by decide) (by decide)).2.2.2.1,
   (optional_attribute_pruning [("description", none)] [] "description" exConfig exCreate exActor
      (by simp) (by simp) (by decide) (by decide)).2.2.2.2,
   (optional_attribute_pruning [("description", none)] [] "description" exConfig exCreate exActor
      (by simp) (by simp) (by decide) (by decide)).1,
   (optional_attribute_pruning [("description", none)] [] "description" exConfig exCreate exActor
      (by simp) (by simp) (by decide) (by decide)).2.1,
   (optional_attribute_pruning [("description", none)] [] "description" exConfig exCreate exActor
      (by simp) (by simp) (by decide) (by decide)).2.2.1⟩

/-- C1: when `grade_max` is present and non-zero, the rendered grade
statement carries the normalized score `grade / grade_max` in both target
formats (the flat result's `score.scaled` and the structured generated
entity's `normalScore`); when `grade_max` is absent, the normalized score
is absent from both rendered payloads. -/
theorem grade_scaled_score (c : Config) (s : Statement) (g m : Rat)
    (hg : getField s.metadata "grade" = some (.num g)) :
    (getField s.metadata "grade_max" = some (.num m) → m ≠ 0 →
      xapiScaled (renderGrade c s) = some (.num (g / m)) ∧
      caliperNormal (renderGrade c s) = some (.num (g / m))) ∧
    (getField s.metadata "grade_max" = none →
      xapiScaled (renderGrade c s) = none ∧
      caliperNormal (renderGrade c s) = none) := by
  have hgm : mdJson s.metadata "grade" = some (.num g) := by simp [mdJson, hg]
  constructor
  · intro hmax hm
    have hmm : mdJson s.metadata "grade_max" = some (.num m) := by simp [mdJson, hmax]
    have hscaled : gradeScaledScore s.metadata = some (g / m) := by
      simp [gradeScaledScore, truthy, hmax, hg, ratOf, hm]
    cases hmin : mdJson s.metadata "grade_min" <;>
    cases hassign : mdJson s.metadata "assignment" <;>
      simp [xapiScaled, caliperNormal, renderGrade, renderStatement, gradeDescriptor,
            renderResultFields, renderRVal, Json.getF, lookupJson, pruneFields,
            generateEntity, hgm, hmm, hscaled, hmin, hassign]
  · intro hmaxn
    have hmmn : mdJson s.metadata "grade_max" = none := by simp [mdJson, hmaxn]
    have hscaledn : gradeScaledScore s.metadata = none := by
      simp [gradeScaledScore, truthy, hmaxn]
    cases hmin : mdJson s.metadata "grade_min" <;>
    cases hassign : mdJson s.metadata "assignment" <;>
      simp [xapiScaled, caliperNormal, renderGrade, renderStatement, gradeDescriptor,
            renderResultFields, renderRVal, Json.getF, lookupJson, pruneFields,
            generateEntity, hgm, hmmn, hscaledn, hmin, hassign]

/-- Witness for C1: grading 45 out of 50 renders a normalized score of
45/50 in both formats; grading with no maximum renders none. -/
theorem grade_scaled_score_witness :
    xapiScaled (renderGrade exConfig exGrade) = some (.num ((45 : Rat) / 50)) ∧
    caliperNormal (renderGrade exConfig exGrade) = some (.num ((45 : Rat) / 50)) ∧
    xapiScaled (renderGrade exConfig exGradeNoMax) = none ∧
    caliperNormal (renderGrade exConfig exGradeNoMax) = none :=
  ⟨((grade_scaled_score exConfig exGrade 45 50 (by decide)).1 (by decide) (by decide)).1,
   ((grade_scaled_score exConfig exGrade 45 50 (by decide)).1 (by decide) (by decide)).2,
   ((grade_scaled_score exConfig exGradeNoMax 45 0 (by decide)).2 (by decide)).1,
   ((grade_scaled_score exConfig exGradeNoMax 45 0 (by decide)).2 (by decide)).2⟩

/-- The statement processor reports exactly the transport's outcome: its
error when the transport fails, the rendered statement when it
succeeds. -/
theorem processStatement_cases (c : Config) (s : Statement) (d : Descriptor) (tr : Transport) :
    (∃ err, tr (renderStatement c s d) = some err ∧
      processStatement c s d tr = .transportFailed err) ∨
    (tr (renderStatement c s d) = none ∧
      processStatement c s d tr = .success (renderStatement c s d)) := by
  cases h : tr (renderStatement c s d) with
  | some err => exact Or.inl ⟨err, rfl, by simp [processStatement, h]⟩
  | none => exact Or.inr ⟨rfl, by simp [processStatement, h]⟩

/-- C4: whenever validation fails, every builder reports exactly the
validation error to the callback, for every transport alike — so no
rendering outcome depends on the transport and the transport is never
consulted; in particular a submit call with a valid id and no assignment
fails citing field assignment, reason missing, expected type uri. -/
theorem validation_short_circuit (c : Config) (s : Statement) (tr : Transport) (e : ValidationError) :
    (validate createRules s.metadata = some e → create c s tr = .validationFailed e) ∧
    (validate viewRules s.metadata = some e → view c s tr = .validationFailed e) ∧
    (validate submitRules s.metadata = some e → submit c s tr = .validationFailed e) ∧
    (validate gradeRules s.metadata = some e → Assignment.grade c s tr = .validationFailed e) ∧
    (validate feedbackRules s.metadata = some e → feedback c s tr = .validationFailed e) ∧
    (fieldError (getField s.metadata "id") ⟨.uri, true⟩ = none →
      getField s.metadata "assignment" = none →
      submit c s tr = .validationFailed ⟨"assignment", .missing, .uri⟩) := by
  refine ⟨fun h => ?_, fun h => ?_, fun h => ?_, fun h => ?_, fun h => ?_, fun h1 h2 => ?_⟩
  · simp [create, h]
  · simp [view, h]
  · simp [submit, h]
  · simp [Assignment.grade, h]
  · simp [feedback, h]
  · have h3 : fieldError (getField s.metadata "assignment") ⟨.uri, true⟩ = some (.missing, .uri) := by
      simp [fieldError, isAbsent, h2]
    have hv : validate submitRules s.metadata = some ⟨"assignment", .missing, .uri⟩ := by
      simp [submitRules, validate, h1, h3]
    simp [submit, hv]

/-- Witness for C4: the concrete submit call missing its assignment is
rejected citing the assignment field even under a failing transport. -/
theorem validation_short_circuit_witness :
    submit exConfig exSubmitMissing exTransportFail =
      .validationFailed ⟨"assignment", .missing, .uri⟩ :=
  (validation_short_circuit exConfig exSubmitMissing exTransportFail
    ⟨"assignment", .missing, .uri⟩).2.2.2.2.2 (by decide) (by decide)

/-- C8: every builder call resolves to exactly one callback outcome: the
validation error when validation fails, the transport's error when the
transport fails, and the rendered result on success. -/
theorem callback_exactly_once (c : Config) (s : Statement) (tr : Transport) :
    ((∃ e, validate createRules s.metadata = some e ∧ create c s tr = .validationFailed e) ∨
     (∃ err, tr (renderCreate c s) = some err ∧ create c s tr = .transportFailed err) ∨
     (tr (renderCreate c s) = none ∧ create c s tr = .success (renderCreate c s))) ∧
    ((∃ e, validate viewRules s.metadata = some e ∧ view c s tr = .validationFailed e) ∨
     (∃ err, tr (renderView c s) = some err ∧ view c s tr = .transportFailed err) ∨
     (tr (renderView c s) = none ∧ view c s tr = .success (renderView c s))) ∧
    ((∃ e, validate submitRules s.metadata = some e ∧ submit c s tr = .validationFailed e) ∨
     (∃ err, tr (renderSubmit c s) = some err ∧ submit c s tr = .transportFailed err) ∨
     (tr (renderSubmit c s) = none ∧ submit c s tr = .success (renderSubmit c s))) ∧
    ((∃ e, validate gradeRules s.metadata = some e ∧ Assignment.grade c s tr = .validationFailed e) ∨
     (∃ err, tr (renderGrade c s) = some err ∧ Assignment.grade c s tr = .transportFailed err) ∨
     (tr (renderGrade c s) = none ∧ Assignment.grade c s tr = .success (renderGrade c s))) ∧
    ((∃ e, validate feedbackRules s.metadata = some e ∧ feedback c s tr = .validationFailed e) ∨
     (∃ err, tr (renderFeedback c s) = some err ∧ feedback c s tr = .transportFailed err) ∨
     (tr (renderFeedback c s) = none ∧ feedback c s tr = .success (renderFeedback c s))) := by
  refine ⟨?_, ?_, ?_, ?_, ?_⟩
  · cases hv : validate createRules s.metadata with
    | some e => exact Or.inl ⟨e, rfl, by simp [create, hv]⟩
    | none =>
      have hop : create c s tr = processStatement c s (createDescriptor c s) tr := by
        simp [create, hv]
      rcases processStatement_cases c s (createDescriptor c s) tr with ⟨err, h1, h2⟩ | ⟨h1, h2⟩
      · exact Or.inr (Or.inl ⟨err, h1, by rw [hop]; exact h2⟩)
      · exact Or.inr (Or.inr ⟨h1, by rw [hop]; exact h2⟩)
  · cases hv : validate viewRules s.metadata with
    | some e => exact Or.inl ⟨e, rfl, by simp [view, hv]⟩
    | none =>
      have hop : view c s tr = processStatement c s (viewDescriptor c s) tr := by
        simp [view, hv]
      rcases processStatement_cases c s (viewDescriptor c s) tr with ⟨err, h1, h2⟩ | ⟨h1, h2⟩
      · exact Or.inr (Or.inl ⟨err, h1, by rw [hop]; exact h2⟩)
      · exact Or.inr (Or.inr ⟨h1, by rw [hop]; exact h2⟩)
  · cases hv : validate submitRules s.metadata with
    | some e => exact Or.inl ⟨e, rfl, by simp [submit, hv]⟩
    | none =>
      have hop : submit c s tr = processStatement c s (submitDescriptor c s) tr := by
        simp [submit, hv]
      rcases processStatement_cases c s (submitDescriptor c s) tr with ⟨err, h1, h2⟩ | ⟨h1, h2⟩
      · exact Or.inr (Or.inl ⟨err, h1, by rw [hop]; exact h2⟩)
      · exact Or.inr (Or.inr ⟨h1, by rw [hop]; exact h2⟩)
  · cases hv : validate gradeRules s.metadata with
    | some e => exact Or.inl ⟨e, rfl, by simp [Assignment.grade, hv]⟩
    | none =>
      have hop : Assignment.grade c s tr = processStatement c s (gradeDescriptor c s) tr := by
        simp [Assignment.grade, hv]
      rcases processStatement_cases c s (gradeDescriptor c s) tr with ⟨err, h1, h2⟩ | ⟨h1, h2⟩
      · exact Or.inr (Or.inl ⟨err, h1, by rw [hop]; exact h2⟩)
      · exact Or.inr (Or.inr ⟨h1, by rw [hop]; exact h2⟩)
  · cases hv : validate feedbackRules s.metadata with
    | some e => exact Or.inl ⟨e, rfl, by simp [feedback, hv]⟩
    | none =>
      have hop : feedback c s tr = processStatement c s (feedbackDescriptor c s) tr := by
        simp [feedback, hv]
      rcases processStatement_cases c s (feedbackDescriptor c s) tr with ⟨err, h1, h2⟩ | ⟨h1, h2⟩
      · exact Or.inr (Or.inl ⟨err, h1, by rw [hop]; exact h2⟩)
      · exact Or.inr (Or.inr ⟨h1, by rw [hop]; exact h2⟩)
